import Mathlib

/-!
Verification development for the MusicVisualizer repository.

The repository contains two near-duplicate implementations of the
"Live Visualizer" playback/visualization engine:

* `src/app.py`   — transport state kept as `is_playing : bool` and
  `paused_at : float`; the playback position is extrapolated from the
  pygame device position report (`get_pos`, milliseconds since the
  last `play`), which is clamped below at 0.
* `src/appp.py`  — transport state additionally keeps `start_time`;
  while playing, the position is `time.time() - start_time`
  (wall-clock extrapolation).

This file is a shallow embedding of the transport handlers, the render
loop tick, the frame-index computation and the frame-slice extraction
of both implementations.  Times are represented as exact rationals;
device position readings (milliseconds) are integers supplied as
explicit inputs, so that the theorems quantify over every possible
device report.
-/

/-- Transport state of the Live Visualizer in `src/app.py`
(session keys `is_playing`, `paused_at`, `duration`). -/
structure AppState where
  is_playing : Bool
  paused_at : ℚ
  duration : ℚ
deriving DecidableEq

/-- The negative-position clamp applied to the pygame device report
(`src/app.py` lines 140-141 and 219-220): `if pos_ms < 0: pos_ms = 0`. -/
def posClamp (p : ℤ) : ℤ :=
  if p < 0 then 0 else p

/-- Clamp a time value to the interval `[0, d]`
(`src/app.py` line 143: `max(0.0, min(current_time, duration))`). -/
def clampTime (d x : ℚ) : ℚ :=
  max 0 (min x d)

/-- The top-level playback position of `src/app.py` (lines 139-143):
`current_time = paused_at + (pos_ms / 1000 if is_playing else 0.0)`,
then clamped to `[0, duration]`. -/
def currentTimeTop (s : AppState) (posMs : ℤ) : ℚ :=
  clampTime s.duration (s.paused_at + (if s.is_playing then ((posClamp posMs : ℤ) : ℚ) / 1000 else 0))

/-- The playback position computed inside the render loop of
`src/app.py` (lines 218-221): `current_time = paused_at + pos_ms / 1000`
with only the negative-position clamp, no clamping to `[0, duration]`. -/
def currentTimeLoop (s : AppState) (posMs : ℤ) : ℚ :=
  s.paused_at + ((posClamp posMs : ℤ) : ℚ) / 1000

/-- The seek handler of `src/app.py` (lines 159-173).  The slider value
`seekTime` is compared against the displayed `current_time`; when they
differ by more than `1e-6` the handler stores the target in `paused_at`
and restarts the device; `is_playing` is not modified. -/
def seekHandler (seekTime ct : ℚ) (s : AppState) : AppState :=
  if 1 / 1000000 < |seekTime - ct| then ⟨s.is_playing, seekTime, s.duration⟩ else s

/-- The play/resume handler of `src/app.py` (lines 176-186): restarts
the device at `paused_at` and sets `is_playing = True`; `paused_at` is
left unchanged. -/
def playHandler (s : AppState) : AppState :=
  ⟨true, s.paused_at, s.duration⟩

/-- The pause handler of `src/app.py` (lines 188-196): reads the device
position, and when it is positive adds it to `paused_at`; then sets
`is_playing = False`.  Note that there is no `is_playing` guard. -/
def pauseHandler (posMs : ℤ) (s : AppState) : AppState :=
  if 0 < posMs then ⟨false, s.paused_at + (posMs : ℚ) / 1000, s.duration⟩
  else ⟨false, s.paused_at, s.duration⟩

/-- The stop handler of `src/app.py` (lines 198-204): stops the device,
set `is_playing = False` and `paused_at = 0`. -/
def stopHandler (s : AppState) : AppState :=
  ⟨false, 0, s.duration⟩

/-- Python `int()` truncation toward zero, applied to an exact rational. -/
def pyInt (q : ℚ) : ℤ :=
  if q < 0 then -⌊-q⌋ else ⌊q⌋

/-- The frame-index computation shared by both render loops
(`src/app.py` lines 227-228, `src/appp.py` lines 219-220):
`idx = int((current_time / duration) * total_frames)` followed by
`idx = max(0, min(idx, total_frames - 1))`. -/
def frameIdx (ct dur : ℚ) (total : ℤ) : ℤ :=
  max 0 (min (pyInt (ct / dur * (total : ℚ))) (total - 1))

/-- The hop size of the visualization loops:
`frame_size = int(22050 * 0.03)` = 661 samples (`src/app.py` lines
208-210, `src/appp.py` lines 142-144). -/
def hopSize : ℕ := 661

/-- Number of analysis frames: `total_frames = len(y_resampled) // hop`
(`src/app.py` line 211, `src/appp.py` line 145). -/
def totalFrames (n : ℕ) : ℕ :=
  n / hopSize

/-- Length of the Python slice `y[a:b]` of a buffer of length `n`,
for non-negative slice bounds `a`, `b`. -/
def sliceLen (n a b : ℕ) : ℕ :=
  min b n - min a n

/-- Transport state of the Live Visualizer in `src/appp.py`
(session keys `is_playing`, `paused_at`, `start_time`, `duration`). -/
structure PPState where
  is_playing : Bool
  paused_at : ℚ
  start_time : ℚ
  duration : ℚ
deriving DecidableEq

/-- The play handler of `src/appp.py` (lines 171-175): device stop and
play at `paused_at` (unwrapped), then `start_time = now - paused_at`
and `is_playing = True`. -/
def ppPlay (now : ℚ) (s : PPState) : PPState :=
  ⟨true, s.paused_at, now - s.paused_at, s.duration⟩

/-- The pause handler of `src/appp.py` (lines 178-181), guarded by
`is_playing`: `paused_at = now - start_time`, device stop,
`is_playing = False`; a no-op when not playing. -/
def ppPause (now : ℚ) (s : PPState) : PPState :=
  if s.is_playing then ⟨false, now - s.start_time, s.start_time, s.duration⟩ else s

/-- The playback position used by the `src/appp.py` render loop
(line 185): `current_time = time.time() - start_time`. -/
def ppCurrentTime (now : ℚ) (s : PPState) : ℚ :=
  now - s.start_time

/-- The seek branch reachable while paused in `src/appp.py`
(lines 260-267): when the slider moves more than `0.3` away from
`paused_at`, store the target, restart the device, reset the anchor
and set `is_playing = True`. -/
def ppSeekPaused (v now : ℚ) (s : PPState) : PPState :=
  if 3 / 10 < |v - s.paused_at| then ⟨true, v, now - v, s.duration⟩ else s

/-- The seek branch inside the playing loop of `src/appp.py`
(lines 211-216): when the slider moves more than `0.3` away from the
current time, store the target and reset the anchor; `is_playing` is
not modified. -/
def ppSeekPlaying (v ct now : ℚ) (s : PPState) : PPState :=
  if 3 / 10 < |v - ct| then ⟨s.is_playing, v, now - v, s.duration⟩ else s

/-- Outcome of one iteration of a render loop: the loop either breaks
(external stop observed, or end of track), restarts at once after a
seek (`continue` before the pacing sleep in `src/appp.py`), skips
rendering an empty frame and sleeps, or renders and sleeps.  Sleep
durations are recorded in seconds. -/
inductive TickResult where
  | breakStopped : TickResult
  | breakEnd : TickResult
  | seekContinue : TickResult
  | skipSleep : ℚ → TickResult
  | noRenderSleep : ℚ → TickResult
  | renderSleep : ℚ → TickResult
deriving DecidableEq

/-- Seconds slept by a loop iteration with the given outcome. -/
def TickResult.sleepSecs : TickResult → ℚ
  | TickResult.breakStopped => 0
  | TickResult.breakEnd => 0
  | TickResult.seekContinue => 0
  | TickResult.skipSleep q => q
  | TickResult.noRenderSleep q => q
  | TickResult.renderSleep q => q

/-- Frame index computed by one `src/app.py` loop iteration
(lines 218-228), from the loop's unclamped position reading. -/
def appTickIdx (s : AppState) (posMs : ℤ) (n : ℕ) : ℤ :=
  frameIdx (currentTimeLoop s posMs) s.duration (totalFrames n : ℤ)

/-- Length of the frame slice `y_resampled[idx*hop:(idx+1)*hop]` taken
by one `src/app.py` loop iteration (line 229). -/
def appTickFrameLen (s : AppState) (posMs : ℤ) (n : ℕ) : ℕ :=
  sliceLen n ((appTickIdx s posMs n).toNat * hopSize) (((appTickIdx s posMs n).toNat + 1) * hopSize)

/-- One iteration of the `src/app.py` render loop (lines 214-248):
break if `is_playing` was cleared; break at end of track when
`current_time >= duration - 0.02`; skip and sleep 0.03 s when the
frame slice is empty (`len(frame) == 0`); otherwise render and sleep
0.03 s. -/
def appTick (s : AppState) (posMs : ℤ) (n : ℕ) : TickResult :=
  if s.is_playing = false then TickResult.breakStopped
  else if s.duration - 1 / 50 ≤ currentTimeLoop s posMs then TickResult.breakEnd
  else if appTickFrameLen s posMs n = 0 then TickResult.skipSleep (3 / 100)
  else TickResult.renderSleep (3 / 100)

/-- Frame index computed by one `src/appp.py` loop iteration
(lines 185, 219-220). -/
def ppTickIdx (now : ℚ) (s : PPState) (n : ℕ) : ℤ :=
  frameIdx (ppCurrentTime now s) s.duration (totalFrames n : ℤ)

/-- Length of the frame slice taken by one `src/appp.py` loop
iteration (line 221). -/
def ppTickFrameLen (now : ℚ) (s : PPState) (n : ℕ) : ℕ :=
  sliceLen n ((ppTickIdx now s n).toNat * hopSize) (((ppTickIdx now s n).toNat + 1) * hopSize)

/-- One iteration of the `src/appp.py` render loop (lines 184-239):
break when `is_playing` is false (loop condition); break at end of
track when `current_time >= duration`; `continue` without sleeping
when the slider moved more than 0.3 s; otherwise render exactly when
the frame slice is non-empty (`len(frame) > 0`) and sleep 0.25 s. -/
def ppTick (now seekVal : ℚ) (s : PPState) (n : ℕ) : TickResult :=
  if s.is_playing = false then TickResult.breakStopped
  else if s.duration ≤ ppCurrentTime now s then TickResult.breakEnd
  else if 3 / 10 < |seekVal - ppCurrentTime now s| then TickResult.seekContinue
  else if 0 < ppTickFrameLen now s n then TickResult.renderSleep (1 / 4)
  else TickResult.noRenderSleep (1 / 4)

/-- Failure flags for the five pygame mixer operations used by the
Live Visualizer: `stop`, `play`, `set_pos`, `pause`, `get_pos`. -/
structure Faults where
  stopFails : Bool
  playFails : Bool
  setPosFails : Bool
  pauseFails : Bool
  getPosFails : Bool
deriving DecidableEq

/-- A single device call: returns `ok` unless its failure flag is set. -/
def devCall (fails : Bool) : Except Unit Unit :=
  if fails then Except.error () else Except.ok ()

/-- Sequencing of two device calls: the second runs only when the
first succeeded (Python statement sequencing under exceptions). -/
def seq2 (a b : Except Unit Unit) : Except Unit Unit :=
  match a with
  | Except.ok _ => b
  | Except.error e => Except.error e

/-- A Python `try: body except: handler` block. -/
def tryExcept (body handler : Except Unit Unit) : Except Unit Unit :=
  match body with
  | Except.ok _ => Except.ok ()
  | Except.error _ => handler

/-- Device interaction of the `src/app.py` play handler (lines
177-185): `try: stop(); play(start)` with fallback
`try: play(); set_pos()` and a final bare `pass`. -/
def appPlayDevice (f : Faults) : Except Unit Unit :=
  tryExcept (seq2 (devCall f.stopFails) (devCall f.playFails))
    (tryExcept (seq2 (devCall f.playFails) (devCall f.setPosFails)) (Except.ok ()))

/-- Device interaction of the `src/app.py` seek handler (lines
161-173): the same nested try/except structure, with an extra
`pause()` call in each branch when the transport is not playing. -/
def appSeekDevice (f : Faults) (playing : Bool) : Except Unit Unit :=
  tryExcept
    (seq2 (devCall f.stopFails)
      (seq2 (devCall f.playFails) (if playing then Except.ok () else devCall f.pauseFails)))
    (tryExcept
      (seq2 (devCall f.playFails)
        (seq2 (devCall f.setPosFails) (if playing then Except.ok () else devCall f.pauseFails)))
      (Except.ok ()))

/-- Device interaction of the `src/app.py` stop handler (lines
199-202): `try: stop() except: pass`. -/
def appStopDevice (f : Faults) : Except Unit Unit :=
  tryExcept (devCall f.stopFails) (Except.ok ())

/-- Device interaction of the `src/app.py` pause handler (lines
188-195): the `get_pos()` read is NOT wrapped in a try/except, while
the `pause()` call is wrapped. -/
def appPauseDevice (f : Faults) (pos : ℤ) : Except Unit ℤ :=
  match (if f.getPosFails then Except.error () else Except.ok pos : Except Unit ℤ) with
  | Except.error e => Except.error e
  | Except.ok p =>
    match tryExcept (devCall f.pauseFails) (Except.ok ()) with
    | Except.error e => Except.error e
    | Except.ok _ => Except.ok p

/-- The `get_pos()` read at the top of the `src/app.py` render loop
(line 218): not wrapped in any exception handler. -/
def appLoopGetPos (f : Faults) (pos : ℤ) : Except Unit ℤ :=
  if f.getPosFails then Except.error () else Except.ok pos

/-- The `stop()` call on the end-of-track path of the `src/app.py`
render loop (line 223): not wrapped in any exception handler. -/
def appLoopEndStop (f : Faults) : Except Unit Unit :=
  devCall f.stopFails

/-- Device interaction of the `src/appp.py` play handler (lines
172-173): `stop()` then `play(start)` with no exception handling. -/
def ppPlayDevice (f : Faults) : Except Unit Unit :=
  seq2 (devCall f.stopFails) (devCall f.playFails)

/-- The `src/app.py` render loop, `for _ in range(total_frames * 3)`
(line 215), run with `fuel` remaining range elements; `reads` gives
the device position report of each iteration.  Returns the number of
iterations executed.  The loop body does not modify the session state
except on the `break` paths, so the state is threaded unchanged. -/
def appRunLoop (n : ℕ) (reads : ℕ → ℤ) : ℕ → AppState → ℕ
  | 0, _ => 0
  | fuel + 1, s =>
    match appTick s (reads fuel) n with
    | TickResult.breakStopped => 1
    | TickResult.breakEnd => 1
    | _ => 1 + appRunLoop n reads fuel s

/-! ## Helper lemmas -/

/-- The clamped value is never negative. -/
lemma clampTime_nonneg (d x : ℚ) : 0 ≤ clampTime d x :=
  le_max_left 0 _

/-- The clamped value never exceeds a non-negative bound. -/
lemma clampTime_le (d x : ℚ) (hd : 0 ≤ d) : clampTime d x ≤ d :=
  max_le hd (min_le_right x d)

/-- Clamping is monotone in its argument. -/
lemma clampTime_mono (d : ℚ) {x y : ℚ} (h : x ≤ y) : clampTime d x ≤ clampTime d y :=
  max_le_max le_rfl (min_le_min h le_rfl)

/-- Clamping moves a point by no more than the perturbation of its
argument (one-sided Lipschitz bound). -/
lemma clampTime_add_le (d x q : ℚ) (hq : 0 ≤ q) : clampTime d (x + q) ≤ clampTime d x + q := by
  unfold clampTime
  apply max_le
  · have h1 : (0 : ℚ) ≤ max 0 (min x d) := le_max_left 0 _
    linarith
  · have h2 : min (x + q) d ≤ min (x + q) (d + q) := min_le_min le_rfl (by linarith)
    have h3 : min (x + q) (d + q) = min x d + q := by rw [← min_add_add_right]
    have h4 : min x d ≤ max 0 (min x d) := le_max_right 0 _
    linarith

/-- The negative-position clamp yields a non-negative reading. -/
lemma posClamp_nonneg (p : ℤ) : 0 ≤ posClamp p := by
  unfold posClamp
  split
  · exact le_refl 0
  · omega

/-- A pause leaves `src/app.py` in the non-playing mode, whatever the
device reported. -/
lemma pauseHandler_not_playing (posMs : ℤ) (s : AppState) :
    (pauseHandler posMs s).is_playing = false := by
  unfold pauseHandler
  split <;> rfl

/-- A pause leaves the duration of the `src/app.py` state unchanged. -/
lemma pauseHandler_duration (posMs : ℤ) (s : AppState) :
    (pauseHandler posMs s).duration = s.duration := by
  unfold pauseHandler
  split <;> rfl

/-! ## C1 -/

/-- C1, counterexample: after seeking to 9.9 s on a 10 s track and
pressing play, a device reading of 200 ms makes the render loop's
`current_time` (src/app.py line 221) equal to 10.1 s, strictly greater
than the duration: the value computed inside the render loop is not
clamped to `[0, duration]`. -/
theorem loop_currentTime_exceeds_duration :
    (playHandler (seekHandler (99 / 10) (currentTimeTop ⟨false, 0, 10⟩ 0) ⟨false, 0, 10⟩)).duration
      < currentTimeLoop
          (playHandler (seekHandler (99 / 10) (currentTimeTop ⟨false, 0, 10⟩ 0) ⟨false, 0, 10⟩))
          200 := by
  norm_num [playHandler, seekHandler, currentTimeTop, currentTimeLoop, clampTime, posClamp,
    min_def, max_def, lt_abs]

/-- C1, amended: the top-level `current_time` of `src/app.py`
(lines 142-143) always lies in `[0, duration]`; the render-loop reading
(lines 218-221) is clamped below at 0 (given a non-negative stored
offset) but not clamped above, and whenever it reaches
`duration - 0.02` the loop breaks before using it for frame
extraction. -/
theorem currentTime_clamping_amended (s : AppState) (posMs : ℤ) (n : ℕ)
    (hd : 0 ≤ s.duration) (hp : 0 ≤ s.paused_at) :
    (0 ≤ currentTimeTop s posMs ∧ currentTimeTop s posMs ≤ s.duration)
      ∧ 0 ≤ currentTimeLoop s posMs
      ∧ (s.is_playing = true → s.duration - 1 / 50 ≤ currentTimeLoop s posMs →
          appTick s posMs n = TickResult.breakEnd) := by
  refine ⟨⟨clampTime_nonneg _ _, clampTime_le _ _ hd⟩, ?_, ?_⟩
  · unfold currentTimeLoop
    have h1 : (0 : ℚ) ≤ ((posClamp posMs : ℤ) : ℚ) / 1000 := by
      apply div_nonneg _ (by norm_num)
      exact_mod_cast posClamp_nonneg posMs
    linarith
  · intro hpl hle
    unfold appTick
    rw [hpl, if_neg (by simp), if_pos hle]

/-- C1, witness for the amended theorem at a concrete state. -/
theorem currentTime_clamping_amended_witness :
    (0 ≤ currentTimeTop ⟨true, 0, 10⟩ 0 ∧ currentTimeTop ⟨true, 0, 10⟩ 0 ≤ (10 : ℚ))
      ∧ 0 ≤ currentTimeLoop ⟨true, 0, 10⟩ 0
      ∧ ((true : Bool) = true → (10 : ℚ) - 1 / 50 ≤ currentTimeLoop ⟨true, 0, 10⟩ 0 →
          appTick ⟨true, 0, 10⟩ 0 661 = TickResult.breakEnd) :=
  currentTime_clamping_amended ⟨true, 0, 10⟩ 0 661 (by norm_num) (by norm_num)

/-! ## C2 -/

/-- C2, counterexample: a resampled signal of 100 samples (shorter than
one 661-sample hop) has `total_frame_count = 0`, and for a track of
duration 10 s the frame index computed at `current_time = duration` is
0, not `total_frame_count - 1 = -1`: the claimed endpoint identity
fails when `total_frame_count = 0`. -/
theorem frameIdx_at_duration_total_zero :
    frameIdx 10 10 (totalFrames 100 : ℤ) = 0
      ∧ (totalFrames 100 : ℤ) - 1 = -1
      ∧ (0 : ℤ) ≠ -1 := by
  refine ⟨?_, by norm_num [totalFrames, hopSize], by decide⟩
  norm_num [frameIdx, totalFrames, hopSize, pyInt, min_def, max_def]

/-- C2, amended: for every track with `duration > 0` and every signal
whose resampled length yields `total_frame_count ≥ 1`, the code's
truncate-then-clamp frame index (src/app.py lines 227-228, src/appp.py
lines 219-220) equals `floor((current_time / duration) ×
total_frame_count)` clamped to `[0, total_frame_count - 1]`, and
`frame_index(0) = 0` and `frame_index(duration) = total_frame_count -
1`. -/
theorem frameIdx_formula_amended (ct dur : ℚ) (n : ℕ)
    (hd : 0 < dur) (ht : 1 ≤ totalFrames n) :
    frameIdx ct dur (totalFrames n : ℤ)
        = max 0 (min ⌊ct / dur * ((totalFrames n : ℤ) : ℚ)⌋ ((totalFrames n : ℤ) - 1))
      ∧ frameIdx 0 dur (totalFrames n : ℤ) = 0
      ∧ frameIdx dur dur (totalFrames n : ℤ) = (totalFrames n : ℤ) - 1 := by
  have hT : (1 : ℤ) ≤ (totalFrames n : ℤ) := by exact_mod_cast ht
  refine ⟨?_, ?_, ?_⟩
  · by_cases hx : ct / dur * ((totalFrames n : ℤ) : ℚ) < 0
    · have hpy : pyInt (ct / dur * ((totalFrames n : ℤ) : ℚ)) ≤ 0 := by
        unfold pyInt
        rw [if_pos hx]
        have h0 : (0 : ℤ) ≤ ⌊-(ct / dur * ((totalFrames n : ℤ) : ℚ))⌋ :=
          Int.floor_nonneg.mpr (by linarith)
        omega
      have hfl : ⌊ct / dur * ((totalFrames n : ℤ) : ℚ)⌋ ≤ 0 := by
        have h1 := Int.floor_le_floor (le_of_lt hx)
        simpa using h1
      unfold frameIdx
      rw [max_eq_left (le_trans (min_le_left _ _) hpy),
        max_eq_left (le_trans (min_le_left _ _) hfl)]
    · unfold frameIdx pyInt
      rw [if_neg hx]
  · have h0 : (0 : ℚ) / dur * ((totalFrames n : ℤ) : ℚ) = 0 := by
      rw [zero_div, zero_mul]
    have hm : min (0 : ℤ) ((totalFrames n : ℤ) - 1) = 0 := min_eq_left (by omega)
    unfold frameIdx pyInt
    rw [h0, if_neg (by norm_num), Int.floor_zero, hm, max_self]
  · have hx : dur / dur * ((totalFrames n : ℤ) : ℚ) = ((totalFrames n : ℤ) : ℚ) := by
      rw [div_self (ne_of_gt hd), one_mul]
    have hTnn : ¬ (((totalFrames n : ℤ) : ℚ) < 0) := by
      push_neg
      exact_mod_cast (by omega : (0 : ℤ) ≤ (totalFrames n : ℤ))
    unfold frameIdx pyInt
    rw [hx, if_neg hTnn, Int.floor_intCast, min_eq_right (by omega), max_eq_right (by omega)]

/-- C2, witness for the amended theorem: duration 10 s, resampled
length 1322 samples, hence two analysis frames. -/
theorem frameIdx_formula_amended_witness :
    frameIdx 5 10 (totalFrames 1322 : ℤ)
        = max 0 (min ⌊(5 : ℚ) / 10 * ((totalFrames 1322 : ℤ) : ℚ)⌋ ((totalFrames 1322 : ℤ) - 1))
      ∧ frameIdx 0 10 (totalFrames 1322 : ℤ) = 0
      ∧ frameIdx 10 10 (totalFrames 1322 : ℤ) = (totalFrames 1322 : ℤ) - 1 :=
  frameIdx_formula_amended 5 10 1322 (by norm_num) (by norm_num [totalFrames, hopSize])

/-! ## C3 -/

/-- C3, counterexample: three adapter calls made by the transport and
render loop are not wrapped in any exception handler, so their failure
propagates out of the handler or loop instead of degrading to a no-op:
the `get_pos` read at the top of the `src/app.py` render loop
(line 218), the `stop`/`play` calls of the `src/appp.py` play handler
(lines 172-173), and the `stop` call on the end-of-track path of the
`src/app.py` render loop (line 223). -/
theorem adapter_unwrapped_call_raises :
    appLoopGetPos ⟨false, false, false, false, true⟩ 0 = Except.error ()
      ∧ ppPlayDevice ⟨true, false, false, false, false⟩ = Except.error ()
      ∧ appLoopEndStop ⟨true, false, false, false, false⟩ = Except.error () :=
  ⟨rfl, rfl, rfl⟩

/-- C3, amended: in `src/app.py` the device calls inside the play,
seek and stop button handlers are wrapped in try/except blocks that
convert any failure into a no-op, and the wrapped `pause` call of the
pause handler likewise cannot propagate a fault once the unwrapped
`get_pos` read succeeds; the `get_pos` reads (pause handler and render
loop) and the render loop's end-of-track `stop` call are not wrapped,
and no device call of the `src/appp.py` handlers is wrapped. -/
theorem adapter_wrapped_calls_amended (f : Faults) (pos : ℤ) (playing : Bool) :
    appPlayDevice f = Except.ok ()
      ∧ appSeekDevice f playing = Except.ok ()
      ∧ appStopDevice f = Except.ok ()
      ∧ appPauseDevice ⟨f.stopFails, f.playFails, f.setPosFails, f.pauseFails, false⟩ pos
          = Except.ok pos := by
  obtain ⟨a, b, c, d, e⟩ := f
  refine ⟨?_, ?_, ?_, ?_⟩ <;>
    cases a <;> cases b <;> cases c <;> cases d <;> cases playing <;> rfl

/-! ## C4 -/

/-- C4, counterexample: in `src/appp.py` a seek issued while the
transport is paused (lines 260-267) does not leave the mode unchanged:
seeking from offset 2 s to 5 s on a paused transport sets
`is_playing = True`. -/
theorem ppSeekPaused_starts_playing :
    (ppSeekPaused 5 100 ⟨false, 2, 0, 10⟩).is_playing = true
      ∧ (⟨false, 2, 0, 10⟩ : PPState).is_playing = false := by
  norm_num [ppSeekPaused, lt_abs]

/-- C4, amended: in `src/app.py` a seek leaves `is_playing` unchanged
in every mode and stores the slider target (already bounded by the
slider range) in `paused_at`; in `src/appp.py` a seek issued while
paused that moves the slider by more than 0.3 s stores the target and
additionally starts playback (`is_playing` becomes true). -/
theorem seek_not_playing_amended (t ct v now : ℚ) (s : AppState) (s2 : PPState)
    (h1 : 1 / 1000000 < |t - ct|) (h2 : s2.is_playing = false)
    (h3 : 3 / 10 < |v - s2.paused_at|) :
    ((seekHandler t ct s).is_playing = s.is_playing ∧ (seekHandler t ct s).paused_at = t)
      ∧ (ppSeekPaused v now s2).is_playing = true
      ∧ (ppSeekPaused v now s2).paused_at = v := by
  have hs2 := h2
  rw [seekHandler, if_pos h1, ppSeekPaused, if_pos h3]
  exact ⟨⟨rfl, rfl⟩, rfl, rfl⟩

/-- C4, witness for the amended theorem at concrete states. -/
theorem seek_not_playing_amended_witness :
    ((seekHandler 5 0 ⟨false, 1, 10⟩).is_playing = (⟨false, 1, 10⟩ : AppState).is_playing
        ∧ (seekHandler 5 0 ⟨false, 1, 10⟩).paused_at = 5)
      ∧ (ppSeekPaused 5 100 ⟨false, 1, 0, 10⟩).is_playing = true
      ∧ (ppSeekPaused 5 100 ⟨false, 1, 0, 10⟩).paused_at = 5 :=
  seek_not_playing_amended 5 0 5 100 ⟨false, 1, 10⟩ ⟨false, 1, 0, 10⟩
    (by rw [show (5 : ℚ) - 0 = 5 by ring, abs_of_nonneg (by norm_num)]; norm_num)
    rfl
    (by norm_num [lt_abs])

/-! ## C5 -/

/-- C5, counterexample: in `src/app.py` the pause handler has no
`is_playing` guard; pausing twice in a row while the device position
reads 1000 ms both times adds one second to `paused_at` twice, so the
state after the second pause differs from the state after the first. -/
theorem pauseHandler_double_counts :
    pauseHandler 1000 (pauseHandler 1000 ⟨true, 0, 10⟩) ≠ pauseHandler 1000 ⟨true, 0, 10⟩ := by
  norm_num [pauseHandler, AppState.mk.injEq]

/-- C5, amended: in `src/appp.py` the pause handler is guarded by
`is_playing`, so a second pause is a no-op and pausing twice has the
same effect as pausing once; in `src/app.py` the handler is unguarded
and pausing twice agrees with pausing once only when the device
position reading at the second call is not positive. -/
theorem pause_idempotent_amended (now1 now2 : ℚ) (s2 : PPState) (pos1 pos2 : ℤ) (s : AppState)
    (h : pos2 ≤ 0) :
    ppPause now2 (ppPause now1 s2) = ppPause now1 s2
      ∧ pauseHandler pos2 (pauseHandler pos1 s) = pauseHandler pos1 s := by
  constructor
  · unfold ppPause
    cases hp : s2.is_playing <;> simp [hp]
  · unfold pauseHandler
    rw [if_neg (not_lt.mpr h)]
    by_cases hp : 0 < pos1 <;> simp [hp]

/-- C5, witness for the amended theorem at concrete states and
readings. -/
theorem pause_idempotent_amended_witness :
    ppPause 8 (ppPause 6 ⟨true, 0, 1, 10⟩) = ppPause 6 ⟨true, 0, 1, 10⟩
      ∧ pauseHandler (-1) (pauseHandler 1000 ⟨true, 0, 10⟩) = pauseHandler 1000 ⟨true, 0, 10⟩ :=
  pause_idempotent_amended 6 8 ⟨true, 0, 1, 10⟩ 1000 (-1) ⟨true, 0, 10⟩ (by decide)

/-! ## C6 -/

/-- C6, counterexample: with a resampled signal of 100 samples (shorter
than one 661-sample hop) on a 10 s track, the `src/appp.py` loop
computes a frame slice of length 100 — shorter than the hop but
non-empty — and, because the guard only checks `len(frame) > 0`, the
slice is transformed and rendered rather than skipped. -/
theorem short_slice_rendered :
    0 < ppTickFrameLen 0 ⟨true, 0, 0, 10⟩ 100
      ∧ ppTickFrameLen 0 ⟨true, 0, 0, 10⟩ 100 < hopSize
      ∧ ppTick 0 0 ⟨true, 0, 0, 10⟩ 100 = TickResult.renderSleep (1 / 4) := by
  have hlen : ppTickFrameLen 0 ⟨true, 0, 0, 10⟩ 100 = 100 := by
    norm_num [ppTickFrameLen, ppTickIdx, ppCurrentTime, frameIdx, totalFrames, hopSize,
      pyInt, sliceLen, min_def, max_def]
  refine ⟨by rw [hlen]; norm_num, by rw [hlen]; norm_num [hopSize], ?_⟩
  unfold ppTick
  rw [if_neg (by norm_num), if_neg (by norm_num [ppCurrentTime, lt_abs]),
    if_neg (by norm_num [ppCurrentTime, lt_abs]), if_pos (by rw [hlen]; norm_num)]

/-- C6, amended: both loops skip rendering exactly when the frame slice
is empty (`src/app.py` lines 230-232 sleep and continue;
`src/appp.py` line 223 renders only a non-empty slice), and any
non-empty slice — including one shorter than the hop — is transformed
and rendered; however, every frame index below `total_frame_count`
addresses a slice of exactly full hop length, so a short non-empty
slice can only arise when `total_frame_count = 0`. -/
theorem frame_slice_amended (s : AppState) (posMs : ℤ) (n i : ℕ)
    (h1 : s.is_playing = true) (h2 : currentTimeLoop s posMs < s.duration - 1 / 50)
    (hi : i < totalFrames n) :
    (appTickFrameLen s posMs n = 0 → appTick s posMs n = TickResult.skipSleep (3 / 100))
      ∧ (appTickFrameLen s posMs n ≠ 0 → appTick s posMs n = TickResult.renderSleep (3 / 100))
      ∧ sliceLen n (i * hopSize) ((i + 1) * hopSize) = hopSize := by
  have hnl : ¬ (s.duration - 1 / 50 ≤ currentTimeLoop s posMs) := not_le.mpr h2
  refine ⟨?_, ?_, ?_⟩
  · intro hz
    unfold appTick
    rw [h1, if_neg (by simp), if_neg hnl, if_pos hz]
  · intro hz
    unfold appTick
    rw [h1, if_neg (by simp), if_neg hnl, if_neg hz]
  · have hle : (i + 1) * hopSize ≤ n := by
      have h3 : i + 1 ≤ n / hopSize := Nat.succ_le_of_lt hi
      exact (Nat.le_div_iff_mul_le (by norm_num [hopSize])).mp h3
    have hle2 : i * hopSize ≤ n :=
      le_trans (Nat.mul_le_mul_right _ (Nat.le_succ i)) hle
    unfold sliceLen
    rw [min_eq_left hle, min_eq_left hle2, Nat.succ_mul]
    omega

/-- C6, witness for the amended theorem: a 661-sample signal with one
full frame at index 0. -/
theorem frame_slice_amended_witness :
    (appTickFrameLen ⟨true, 0, 10⟩ 0 661 = 0 →
        appTick ⟨true, 0, 10⟩ 0 661 = TickResult.skipSleep (3 / 100))
      ∧ (appTickFrameLen ⟨true, 0, 10⟩ 0 661 ≠ 0 →
          appTick ⟨true, 0, 10⟩ 0 661 = TickResult.renderSleep (3 / 100))
      ∧ sliceLen 661 (0 * hopSize) ((0 + 1) * hopSize) = hopSize :=
  frame_slice_amended ⟨true, 0, 10⟩ 0 661 0 rfl
    (by norm_num [currentTimeLoop, posClamp]) (by norm_num [totalFrames, hopSize])

/-! ## C7 -/

/-- C7: a seek that fires (slider moved by more than the 1e-6
threshold in `src/app.py`, 0.3 s in `src/appp.py`) followed
immediately by a read of the playback position returns exactly the
seek target, whatever the prior mode: in `src/app.py` the device
restarts at the target so the immediate reading is `paused_at = t`
(clamped, a no-op for targets inside `[0, duration]`); in
`src/appp.py` both the paused branch and the playing-loop branch set
`start_time = now - target`, so the next position read returns the
target. -/
theorem seek_then_currentTime (s : AppState) (t ct v now now2 : ℚ) (s2 s3 : PPState)
    (h1 : 1 / 1000000 < |t - ct|) (h2 : 0 ≤ t) (h3 : t ≤ s.duration)
    (h4 : 3 / 10 < |v - s2.paused_at|) (h5 : 3 / 10 < |v - ppCurrentTime now2 s3|) :
    currentTimeTop (seekHandler t ct s) 0 = t
      ∧ ppCurrentTime now (ppSeekPaused v now s2) = v
      ∧ ppCurrentTime now2 (ppSeekPlaying v (ppCurrentTime now2 s3) now2 s3) = v := by
  refine ⟨?_, ?_, ?_⟩
  · rw [seekHandler, if_pos h1]
    unfold currentTimeTop clampTime posClamp
    simp only [ite_self, if_neg (by norm_num : ¬ ((0 : ℤ) < 0))]
    norm_num [min_eq_left h3, max_eq_right h2]
  · rw [ppSeekPaused, if_pos h4]
    unfold ppCurrentTime
    ring
  · rw [ppSeekPlaying, if_pos h5]
    unfold ppCurrentTime
    ring

/-- C7, witness: seek to 5 s from a stopped 10 s transport in
`src/app.py`, and seeks to 4 s in both `src/appp.py` branches. -/
theorem seek_then_currentTime_witness :
    currentTimeTop (seekHandler 5 0 ⟨false, 0, 10⟩) 0 = 5
      ∧ ppCurrentTime 7 (ppSeekPaused 4 7 ⟨false, 2, 0, 10⟩) = 4
      ∧ ppCurrentTime 9 (ppSeekPlaying 4 (ppCurrentTime 9 ⟨true, 0, 1, 10⟩) 9 ⟨true, 0, 1, 10⟩) = 4 :=
  seek_then_currentTime ⟨false, 0, 10⟩ 5 0 4 7 9 ⟨false, 2, 0, 10⟩ ⟨true, 0, 1, 10⟩
    (by norm_num [lt_abs]) (by norm_num) (by norm_num)
    (by norm_num [lt_abs]) (by norm_num [ppCurrentTime, lt_abs])

/-! ## C8 -/

/-- C8: after play, pause (with any device reading), then play again
with no intervening seek, the first position read after the resume —
taken within one pacing interval, i.e. a device report of at most
30 ms — differs from the position observed while paused by at most
0.03 s (one pacing interval). -/
theorem play_pause_play_resumes (s : AppState) (pos posR r : ℤ)
    (h1 : 0 ≤ posR) (h2 : posR ≤ 30) :
    |currentTimeTop (playHandler (pauseHandler pos (playHandler s))) posR -
        currentTimeTop (pauseHandler pos (playHandler s)) r| ≤ 3 / 100 := by
  set s1 := pauseHandler pos (playHandler s) with hs1
  have hq0 : (0 : ℚ) ≤ (posR : ℚ) / 1000 := by
    apply div_nonneg _ (by norm_num)
    exact_mod_cast h1
  have hq1 : (posR : ℚ) / 1000 ≤ 3 / 100 := by
    have h3 : (posR : ℚ) ≤ 30 := by exact_mod_cast h2
    linarith
  have e2 : currentTimeTop s1 r = clampTime s1.duration s1.paused_at := by
    unfold currentTimeTop
    rw [pauseHandler_not_playing pos (playHandler s)]
    norm_num
  have e1 : currentTimeTop (playHandler s1) posR
      = clampTime s1.duration (s1.paused_at + (posR : ℚ) / 1000) := by
    unfold currentTimeTop playHandler posClamp
    rw [if_neg (not_lt.mpr h1)]
    simp
  have hmono : clampTime s1.duration s1.paused_at
      ≤ clampTime s1.duration (s1.paused_at + (posR : ℚ) / 1000) :=
    clampTime_mono _ (by linarith)
  have hadd := clampTime_add_le s1.duration s1.paused_at ((posR : ℚ) / 1000) hq0
  rw [e1, e2, abs_of_nonneg (by linarith)]
  linarith

/-- C8, witness: play from 0, pause at a device reading of 500 ms,
resume and read 30 ms later. -/
theorem play_pause_play_resumes_witness :
    |currentTimeTop (playHandler (pauseHandler 500 (playHandler ⟨false, 0, 10⟩))) 30 -
        currentTimeTop (pauseHandler 500 (playHandler ⟨false, 0, 10⟩)) 0| ≤ 3 / 100 :=
  play_pause_play_resumes ⟨false, 0, 10⟩ 500 30 0 (by decide) (by decide)

/-! ## C9 -/

/-- C9, counterexample: a rendering iteration of the `src/appp.py`
loop (line 239) sleeps 0.25 s, not the claimed ~30 ms pacing
interval. -/
theorem pp_loop_sleep_not_30ms :
    (ppTick 0 0 ⟨true, 0, 0, 10⟩ 1000).sleepSecs = 1 / 4
      ∧ (ppTick 0 0 ⟨true, 0, 0, 10⟩ 1000).sleepSecs ≠ 3 / 100 := by
  have ht : ppTick 0 0 ⟨true, 0, 0, 10⟩ 1000 = TickResult.renderSleep (1 / 4) := by
    unfold ppTick
    rw [if_neg (by norm_num), if_neg (by norm_num [ppCurrentTime, lt_abs]),
      if_neg (by norm_num [ppCurrentTime, lt_abs]),
      if_pos (by norm_num [ppTickFrameLen, ppTickIdx, ppCurrentTime, frameIdx, totalFrames,
        hopSize, pyInt, sliceLen, min_def, max_def])]
  rw [ht]
  norm_num [TickResult.sleepSecs]

/-- C9, amended: an iteration of the `src/app.py` render loop either
sleeps exactly 0.03 s (≈33 fps) before the next tick or breaks without
sleeping; an iteration of the `src/appp.py` render loop either sleeps
exactly 0.25 s, or breaks, or — after an in-loop seek — continues to
the next tick without any pacing sleep. -/
theorem pacing_sleep_amended (s : AppState) (posMs : ℤ) (n : ℕ)
    (s2 : PPState) (now seekVal : ℚ) (n2 : ℕ) :
    ((appTick s posMs n).sleepSecs = 0 ∨ (appTick s posMs n).sleepSecs = 3 / 100)
      ∧ ((ppTick now seekVal s2 n2).sleepSecs = 0
          ∨ (ppTick now seekVal s2 n2).sleepSecs = 1 / 4) := by
  constructor
  · unfold appTick
    split_ifs <;> simp [TickResult.sleepSecs]
  · unfold ppTick
    split_ifs <;> simp [TickResult.sleepSecs]

/-! ## C10 -/

/-- The `src/app.py` render loop executes at most as many iterations
as it has remaining range elements. -/
lemma appRunLoop_le (n : ℕ) (reads : ℕ → ℤ) :
    ∀ fuel s, appRunLoop n reads fuel s ≤ fuel := by
  intro fuel
  induction fuel with
  | zero =>
    intro s
    simp [appRunLoop]
  | succ k ih =>
    intro s
    have ihs := ih s
    unfold appRunLoop
    cases h : appTick s (reads k) n <;> simp [h] <;> omega

/-- C10: the `src/app.py` Live Visualizer render loop,
`for _ in range(total_frames * 3)` (line 215), always terminates after
at most `total_frames * 3` iterations, for every signal length, every
sequence of device position reports and every starting state — even
if the end-of-track condition or an external stop is never
observed. -/
theorem render_loop_iteration_bound (n : ℕ) (reads : ℕ → ℤ) (s : AppState) :
    appRunLoop n reads (totalFrames n * 3) s ≤ totalFrames n * 3 :=
  appRunLoop_le n reads (totalFrames n * 3) s
